import Mathlib

/-!
Shallow embedding of the D3D9 common-texture translator
(`src/d3d9/d3d9_common_texture.h` of the d9vk repository) and proofs of
the specified properties.

Machine integers (`UINT`, `DWORD`) are modelled as `Nat`; the quantities
involved (dimensions, mip counts, subresource indices, lock flags) never
overflow in the claims considered.  Reference-counted handles
(`Rc<DxvkImage>`, `Rc<DxvkBuffer>`, `Rc<DxvkImageView>`) are modelled as
`Option` of a handle record, `none` standing for `nullptr`.  Per-subresource
arrays (`D3D9SubresourceArray<T> = std::array<T, MaxSubresources>`) are
modelled as total functions from `Nat`.
-/

namespace D9VK

/-- Legacy pixel format (`D3D9Format` enum).  The claims only distinguish the
`NULL_FORMAT` placeholder and the fixup-triggering `R8G8B8`; every other
enumerant is represented by its numeric code. -/
inductive D3D9Format where
  | NULL_FORMAT : D3D9Format
  | R8G8B8 : D3D9Format
  | other : Nat → D3D9Format
deriving DecidableEq, Repr

/-- Legacy memory pool (`D3DPOOL`). -/
inductive D3DPOOL where
  | DEFAULT : D3DPOOL
  | MANAGED : D3DPOOL
  | SYSTEMMEM : D3DPOOL
  | SCRATCH : D3DPOOL
deriving DecidableEq, Repr

/-- Image memory mapping mode (`D3D9_COMMON_TEXTURE_MAP_MODE`). -/
inductive D3D9_COMMON_TEXTURE_MAP_MODE where
  | NONE : D3D9_COMMON_TEXTURE_MAP_MODE       -- no mapping available
  | BACKED : D3D9_COMMON_TEXTURE_MAP_MODE     -- mapped image through buffer
  | SYSTEMMEM : D3D9_COMMON_TEXTURE_MAP_MODE  -- only a buffer, no image
deriving DecidableEq, Repr

/-- Vulkan image tiling (the two values the source distinguishes). -/
inductive VkImageTiling where
  | OPTIMAL : VkImageTiling
  | LINEAR : VkImageTiling
deriving DecidableEq, Repr

/-- Vulkan image layout (the values occurring in the source). -/
inductive VkImageLayout where
  | GENERAL : VkImageLayout
  | COLOR_ATTACHMENT_OPTIMAL : VkImageLayout
  | DEPTH_STENCIL_ATTACHMENT_OPTIMAL : VkImageLayout
deriving DecidableEq, Repr

/-- Device image handle (`DxvkImage`): an identity plus the sample count,
which is the only piece of its creation info the claims inspect. -/
structure DxvkImage where
  id : Nat
  sampleCount : Nat
deriving DecidableEq, Repr

/-- Device buffer handle (`DxvkBuffer`): identified by its identity. -/
structure DxvkBuffer where
  id : Nat
deriving DecidableEq, Repr

/-- Image view handle (`DxvkImageView`): an identity plus the tiling of the
image it was created from (`imageInfo().tiling` in the source). -/
structure DxvkImageView where
  id : Nat
  tiling : VkImageTiling
deriving DecidableEq, Repr

/-- Common texture description (`D3D9_COMMON_TEXTURE_DESC`). -/
structure D3D9_COMMON_TEXTURE_DESC where
  Width : Nat
  Height : Nat
  Depth : Nat
  ArraySize : Nat
  MipLevels : Nat
  Usage : Nat
  Format : D3D9Format
  Pool : D3DPOOL
  Discard : Bool
  MultiSample : Nat
  MultisampleQuality : Nat
deriving DecidableEq, Repr

/-- Color/sRGB view pair (`D3D9ColorView`). -/
structure D3D9ColorView where
  Color : Option DxvkImageView
  Srgb : Option DxvkImageView
deriving DecidableEq, Repr

/-- Cached view set (`D3D9ViewSet`).  The `std::array<_, 6>` members are
modelled as functions from `Fin 6`. -/
structure D3D9ViewSet where
  Sample : D3D9ColorView
  MipGenRT : Option DxvkImageView
  FaceSample : Fin 6 → D3D9ColorView
  FaceRenderTarget : Fin 6 → D3D9ColorView
  FaceDepth : Fin 6 → Option DxvkImageView

namespace D3D9ViewSet

/-- `D3D9ViewSet::GetRTLayout` from the source: color-attachment-optimal
when face-0 render-target color view exists and its image tiling is
optimal, else the general layout. -/
def GetRTLayout (vs : D3D9ViewSet) : VkImageLayout :=
  match (vs.FaceRenderTarget 0).Color with
  | some v =>
    if v.tiling = VkImageTiling.OPTIMAL then
      VkImageLayout.COLOR_ATTACHMENT_OPTIMAL
    else
      VkImageLayout.GENERAL
  | none => VkImageLayout.GENERAL

/-- `D3D9ViewSet::GetDepthLayout` from the source: depth-stencil-attachment
optimal when face-0 depth view exists and its image tiling is optimal,
else the general layout. -/
def GetDepthLayout (vs : D3D9ViewSet) : VkImageLayout :=
  match vs.FaceDepth 0 with
  | some v =>
    if v.tiling = VkImageTiling.OPTIMAL then
      VkImageLayout.DEPTH_STENCIL_ATTACHMENT_OPTIMAL
    else
      VkImageLayout.GENERAL
  | none => VkImageLayout.GENERAL

end D3D9ViewSet

/-- State of a `D3D9CommonTexture`.  `m_nextHandle` is a model device: a
fresh-handle counter standing for the device allocator, so that newly
allocated buffers receive handles distinct from each other and from all
previously allocated ones. -/
structure D3D9CommonTexture where
  m_desc : D3D9_COMMON_TEXTURE_DESC
  m_mapMode : D3D9_COMMON_TEXTURE_MAP_MODE
  m_image : Option DxvkImage
  m_resolveImage : Option DxvkImage
  m_buffers : Nat → Option DxvkBuffer
  m_fixupBuffers : Nat → Option DxvkBuffer
  m_lockFlags : Nat → Nat
  m_views : D3D9ViewSet
  m_nextHandle : Nat

namespace D3D9CommonTexture

/-- `D3D9CommonTexture::DetermineMapMode` from the source, as a pure function
of the description: the `NULL_FORMAT` placeholder yields `NONE`; otherwise
the `SYSTEMMEM` and `SCRATCH` pools yield `SYSTEMMEM`; otherwise `BACKED`. -/
def DetermineMapMode (desc : D3D9_COMMON_TEXTURE_DESC) : D3D9_COMMON_TEXTURE_MAP_MODE :=
  if desc.Format = D3D9Format.NULL_FORMAT then
    D3D9_COMMON_TEXTURE_MAP_MODE.NONE
  else if desc.Pool = D3DPOOL.SYSTEMMEM ∨ desc.Pool = D3DPOOL.SCRATCH then
    D3D9_COMMON_TEXTURE_MAP_MODE.SYSTEMMEM
  else
    D3D9_COMMON_TEXTURE_MAP_MODE.BACKED

/-- An empty view set, for freshly constructed state. -/
def emptyViews : D3D9ViewSet :=
  { Sample := ⟨none, none⟩
    MipGenRT := none
    FaceSample := fun _ => ⟨none, none⟩
    FaceRenderTarget := fun _ => ⟨none, none⟩
    FaceDepth := fun _ => none }

/-- Modelled from the spec: the `D3D9CommonTexture` constructor (its body is
not in src/, only declared).  Per the spec it computes the mapping mode once
from the description via `DetermineMapMode` and caches it for the resource's
lifetime; the backing image is present iff the mode is not `SYSTEMMEM`;
per-subresource buffers start out null (created lazily); the resolve image
starts out null (built on first need); lock flags start at zero.  The backing
image produced by the external device is passed in as `img`. -/
def mkTexture (desc : D3D9_COMMON_TEXTURE_DESC) (img : DxvkImage) : D3D9CommonTexture :=
  { m_desc := desc
    m_mapMode := DetermineMapMode desc
    m_image :=
      if DetermineMapMode desc = D3D9_COMMON_TEXTURE_MAP_MODE.SYSTEMMEM then none else some img
    m_resolveImage := none
    m_buffers := fun _ => none
    m_fixupBuffers := fun _ => none
    m_lockFlags := fun _ => 0
    m_views := emptyViews
    m_nextHandle := 0 }

/-- `D3D9CommonTexture::GetMapMode` from the source. -/
def GetMapMode (t : D3D9CommonTexture) : D3D9_COMMON_TEXTURE_MAP_MODE :=
  t.m_mapMode

/-- `D3D9CommonTexture::CountSubresources` from the source. -/
def CountSubresources (t : D3D9CommonTexture) : Nat :=
  t.m_desc.ArraySize * t.m_desc.MipLevels

/-- `D3D9CommonTexture::CalcSubresource` from the source. -/
def CalcSubresource (t : D3D9CommonTexture) (Face MipLevel : Nat) : Nat :=
  Face * t.m_desc.MipLevels + MipLevel

/-- `D3D9CommonTexture::RequiresFixup` from the source: true exactly for the
`R8G8B8` format. -/
def RequiresFixup (t : D3D9CommonTexture) : Bool :=
  t.m_desc.Format = D3D9Format.R8G8B8

/-- `D3D9CommonTexture::GetMappingBuffer` from the source. -/
def GetMappingBuffer (t : D3D9CommonTexture) (Subresource : Nat) : Option DxvkBuffer :=
  t.m_buffers Subresource

/-- `D3D9CommonTexture::GetCopyBuffer` from the source: the fixup buffer when
the format requires fixup, else the mapping buffer. -/
def GetCopyBuffer (t : D3D9CommonTexture) (Subresource : Nat) : Option DxvkBuffer :=
  if t.RequiresFixup then t.m_fixupBuffers Subresource
  else t.m_buffers Subresource

/-- `D3D9CommonTexture::SetLockFlags` from the source. -/
def SetLockFlags (t : D3D9CommonTexture) (Subresource Flags : Nat) : D3D9CommonTexture :=
  { t with m_lockFlags := Function.update t.m_lockFlags Subresource Flags }

/-- `D3D9CommonTexture::GetLockFlags` from the source. -/
def GetLockFlags (t : D3D9CommonTexture) (Subresource : Nat) : Nat :=
  t.m_lockFlags Subresource

/-- `D3D9CommonTexture::DestroyBufferSubresource` from the source: nulls the
mapping buffer and the fixup buffer of the given subresource. -/
def DestroyBufferSubresource (t : D3D9CommonTexture) (Subresource : Nat) : D3D9CommonTexture :=
  { t with
      m_buffers := Function.update t.m_buffers Subresource none
      m_fixupBuffers := Function.update t.m_fixupBuffers Subresource none }

/-- Modelled from the spec: `D3D9CommonTexture::CreateBufferSubresource`
(declared in the header, body not in src/).  Per the spec it is idempotent:
if buffers already exist for the subresource it performs no allocation and
reports no new allocation (returns `false`); otherwise it allocates a fresh
host-visible mapping buffer and, when the format requires fixup, additionally
a second distinct fixup buffer, and reports that an allocation happened.
Fresh handles are drawn from the `m_nextHandle` model counter. -/
def CreateBufferSubresource (t : D3D9CommonTexture) (Subresource : Nat) :
    Bool × D3D9CommonTexture :=
  if (t.m_buffers Subresource).isSome then
    (false, t)
  else if t.RequiresFixup then
    (true,
      { t with
          m_buffers := Function.update t.m_buffers Subresource (some ⟨t.m_nextHandle⟩)
          m_fixupBuffers :=
            Function.update t.m_fixupBuffers Subresource (some ⟨t.m_nextHandle + 1⟩)
          m_nextHandle := t.m_nextHandle + 2 })
  else
    (true,
      { t with
          m_buffers := Function.update t.m_buffers Subresource (some ⟨t.m_nextHandle⟩)
          m_nextHandle := t.m_nextHandle + 1 })

/-- Modelled from the spec: `D3D9CommonTexture::CreateResolveImage` (declared
in the header, body not in src/).  Per the spec it builds an image identical
to the backing image's description except forced to one sample. -/
def CreateResolveImage (t : D3D9CommonTexture) : DxvkImage :=
  match t.m_image with
  | some img => { img with sampleCount := 1 }
  | none => { id := 0, sampleCount := 1 }

/-- `D3D9CommonTexture::GetResolveImage` from the source: if the cached
resolve image is null, build it via `CreateResolveImage` and cache it;
return the cached handle.  Returns the handle together with the updated
state. -/
def GetResolveImage (t : D3D9CommonTexture) : DxvkImage × D3D9CommonTexture :=
  match t.m_resolveImage with
  | some img => (img, t)
  | none =>
    let img := CreateResolveImage t
    (img, { t with m_resolveImage := some img })

/-- Modelled from the spec: `D3D9CommonTexture::NormalizeTextureProperties`
(declared in the header, body not in src/).  Per the spec it validates the
description and fills in a full mip chain when the automatic sentinel
(mip-level count 0) was requested: it rejects descriptions with a zero
spatial dimension or a zero array size, and multisampling combined with
multiple mip levels; on success the mip-level count is the requested one,
or `floor(log2(max(width, height, depth))) + 1` for the automatic
sentinel.  `none` models a failure status surfaced to the caller. -/
def NormalizeTextureProperties (desc : D3D9_COMMON_TEXTURE_DESC) :
    Option D3D9_COMMON_TEXTURE_DESC :=
  if desc.Width = 0 ∨ desc.Height = 0 ∨ desc.Depth = 0 ∨ desc.ArraySize = 0 then
    none
  else if desc.MultiSample ≠ 0 ∧ 1 < desc.MipLevels then
    none
  else
    some { desc with
      MipLevels :=
        if desc.MipLevels = 0 then
          Nat.log2 (max desc.Width (max desc.Height desc.Depth)) + 1
        else
          desc.MipLevels }

end D3D9CommonTexture

open D3D9CommonTexture

/-! Concrete example descriptions and textures, used by witnesses and
counterexamples. -/

/-- A plain backed 256x256 texture description with 4 mip levels. -/
def descBacked : D3D9_COMMON_TEXTURE_DESC :=
  { Width := 256, Height := 256, Depth := 1, ArraySize := 1, MipLevels := 4,
    Usage := 0, Format := D3D9Format.other 21, Pool := D3DPOOL.DEFAULT,
    Discard := false, MultiSample := 0, MultisampleQuality := 0 }

/-- The backed description moved to the system-memory pool. -/
def descSysmem : D3D9_COMMON_TEXTURE_DESC :=
  { descBacked with Pool := D3DPOOL.SYSTEMMEM }

/-- A description with the placeholder format in the system-memory pool. -/
def descNullSysmem : D3D9_COMMON_TEXTURE_DESC :=
  { descBacked with Format := D3D9Format.NULL_FORMAT, Pool := D3DPOOL.SYSTEMMEM }

/-- The backed description with the fixup-triggering R8G8B8 format. -/
def descFix : D3D9_COMMON_TEXTURE_DESC :=
  { descBacked with Format := D3D9Format.R8G8B8 }

/-- The backed description requesting the automatic full mip chain. -/
def descAuto : D3D9_COMMON_TEXTURE_DESC :=
  { descBacked with MipLevels := 0 }

/-- A concrete backing image handle. -/
def imgA : DxvkImage := { id := 1, sampleCount := 4 }

/-- A concrete backed texture. -/
def texBacked : D3D9CommonTexture := mkTexture descBacked imgA

/-- A concrete texture in the fixup-triggering format. -/
def texFix : D3D9CommonTexture := mkTexture descFix imgA

/-- The fixup-format texture after creating and then destroying the buffers
of subresource 0: both buffers of subresource 0 are null again. -/
def texFixDestroyed : D3D9CommonTexture :=
  DestroyBufferSubresource (CreateBufferSubresource texFix 0).2 0

/-- A view set whose face-0 render-target color view has optimal tiling and
whose face-0 depth view has linear tiling. -/
def vsExample : D3D9ViewSet :=
  { Sample := { Color := none, Srgb := none }
    MipGenRT := none
    FaceSample := fun _ => { Color := none, Srgb := none }
    FaceRenderTarget := fun _ =>
      { Color := some { id := 5, tiling := VkImageTiling.OPTIMAL }, Srgb := none }
    FaceDepth := fun _ => some { id := 6, tiling := VkImageTiling.LINEAR } }

/-! Helper lemmas shared by the claim proofs. -/

/-- Calling `CreateBufferSubresource` when the mapping buffer already exists
performs no allocation: it returns `false` and leaves the state unchanged. -/
theorem createBufferSubresource_of_some (t : D3D9CommonTexture) (i : Nat)
    (b : DxvkBuffer) (hb : t.m_buffers i = some b) :
    CreateBufferSubresource t i = (false, t) := by
  unfold CreateBufferSubresource
  simp [hb]

/-- After `CreateBufferSubresource` runs on a subresource without a mapping
buffer, the mapping buffer of that subresource is the freshly allocated
handle. -/
theorem createBufferSubresource_buffers_of_none (t : D3D9CommonTexture) (i : Nat)
    (h : t.m_buffers i = none) :
    ((CreateBufferSubresource t i).2).m_buffers i = some { id := t.m_nextHandle } := by
  unfold CreateBufferSubresource
  simp only [h, Option.isSome_none, Bool.false_eq_true, if_false]
  split <;> simp [Function.update_same]

/-! Claim C1. -/

/-- C1: the mapping mode is a pure function of (format, pool), computed once
at construction via `DetermineMapMode` and immutable under every mutating
operation; `GetMapMode` of a constructed texture is exactly
`DetermineMapMode` of its description, and `DetermineMapMode` follows the
table: placeholder format yields `NONE`, else SystemMemory/Scratch pool
yields `SYSTEMMEM`, else `BACKED`. -/
theorem C1_map_mode_pure (desc : D3D9_COMMON_TEXTURE_DESC) (img : DxvkImage)
    (t : D3D9CommonTexture) (i f : Nat) :
    GetMapMode (mkTexture desc img) = DetermineMapMode desc
    ∧ (desc.Format = D3D9Format.NULL_FORMAT →
        DetermineMapMode desc = D3D9_COMMON_TEXTURE_MAP_MODE.NONE)
    ∧ (desc.Format ≠ D3D9Format.NULL_FORMAT →
        (desc.Pool = D3DPOOL.SYSTEMMEM ∨ desc.Pool = D3DPOOL.SCRATCH) →
        DetermineMapMode desc = D3D9_COMMON_TEXTURE_MAP_MODE.SYSTEMMEM)
    ∧ (desc.Format ≠ D3D9Format.NULL_FORMAT →
        desc.Pool ≠ D3DPOOL.SYSTEMMEM → desc.Pool ≠ D3DPOOL.SCRATCH →
        DetermineMapMode desc = D3D9_COMMON_TEXTURE_MAP_MODE.BACKED)
    ∧ GetMapMode (SetLockFlags t i f) = GetMapMode t
    ∧ GetMapMode (DestroyBufferSubresource t i) = GetMapMode t
    ∧ GetMapMode (CreateBufferSubresource t i).2 = GetMapMode t
    ∧ GetMapMode (GetResolveImage t).2 = GetMapMode t := by
  refine ⟨rfl, ?_, ?_, ?_, rfl, rfl, ?_, ?_⟩
  · intro h
    simp [DetermineMapMode, h]
  · intro h hp
    simp [DetermineMapMode, h, hp]
  · intro h h1 h2
    simp [DetermineMapMode, h, h1, h2]
  · unfold GetMapMode CreateBufferSubresource
    split
    · rfl
    · split <;> rfl
  · unfold GetMapMode GetResolveImage
    rcases h : t.m_resolveImage with _ | img' <;> simp

/-- Witness for C1: the theorem applied at concrete inputs, each hypothesis
discharged on a concrete description. -/
theorem C1_map_mode_pure_witness :
    GetMapMode (mkTexture descNullSysmem imgA) = DetermineMapMode descNullSysmem
    ∧ DetermineMapMode descNullSysmem = D3D9_COMMON_TEXTURE_MAP_MODE.NONE
    ∧ DetermineMapMode descSysmem = D3D9_COMMON_TEXTURE_MAP_MODE.SYSTEMMEM
    ∧ DetermineMapMode descBacked = D3D9_COMMON_TEXTURE_MAP_MODE.BACKED
    ∧ GetMapMode (SetLockFlags texBacked 0 1) = GetMapMode texBacked
    ∧ GetMapMode (GetResolveImage texBacked).2 = GetMapMode texBacked := by
  refine ⟨(C1_map_mode_pure descNullSysmem imgA texBacked 0 1).1,
    (C1_map_mode_pure descNullSysmem imgA texBacked 0 1).2.1 (by decide),
    (C1_map_mode_pure descSysmem imgA texBacked 0 1).2.2.1 (by decide) (Or.inl (by decide)),
    (C1_map_mode_pure descBacked imgA texBacked 0 1).2.2.2.1
      (by decide) (by decide) (by decide),
    (C1_map_mode_pure descBacked imgA texBacked 0 1).2.2.2.2.2.1,
    (C1_map_mode_pure descBacked imgA texBacked 0 1).2.2.2.2.2.2.2⟩

/-! Claim C2. -/

/-- C2 counterexample: a description in the SystemMemory pool whose format is
the placeholder `NULL_FORMAT` gets mode `NONE`, not `SYSTEMMEM`, because
`DetermineMapMode` tests the placeholder format first.  This refutes the
claim that SystemMemory/Scratch pools yield `SYSTEMMEM` regardless of
format, including the placeholder. -/
theorem C2_counterexample :
    descNullSysmem.Pool = D3DPOOL.SYSTEMMEM
    ∧ descNullSysmem.Format = D3D9Format.NULL_FORMAT
    ∧ DetermineMapMode descNullSysmem ≠ D3D9_COMMON_TEXTURE_MAP_MODE.SYSTEMMEM
    ∧ DetermineMapMode descNullSysmem = D3D9_COMMON_TEXTURE_MAP_MODE.NONE := by
  decide

/-- C2 (amended): for every description whose pool is SystemMemory or Scratch
and whose format is not the placeholder `NULL_FORMAT`, the computed mapping
mode is `SYSTEMMEM`. -/
theorem C2_sysmem_pool_mode (desc : D3D9_COMMON_TEXTURE_DESC)
    (hp : desc.Pool = D3DPOOL.SYSTEMMEM ∨ desc.Pool = D3DPOOL.SCRATCH)
    (hf : desc.Format ≠ D3D9Format.NULL_FORMAT) :
    DetermineMapMode desc = D3D9_COMMON_TEXTURE_MAP_MODE.SYSTEMMEM := by
  simp [DetermineMapMode, hf, hp]

/-- Witness for C2 (amended): the SystemMemory-pool description with a
non-placeholder format. -/
theorem C2_sysmem_pool_mode_witness :
    DetermineMapMode descSysmem = D3D9_COMMON_TEXTURE_MAP_MODE.SYSTEMMEM :=
  C2_sysmem_pool_mode descSysmem (Or.inl (by decide)) (by decide)

/-! Claim C3. -/

/-- C3 counterexample: a texture in the fixup-triggering R8G8B8 format whose
subresource-0 buffers were created and then destroyed (pure header code)
has `RequiresFixup` true while `GetCopyBuffer 0` and `GetMappingBuffer 0`
are both null and hence equal, refuting the claimed invariant that
`RequiresFixup` agrees with `GetCopyBuffer i` differing from
`GetMappingBuffer i` over all reachable states. -/
theorem C3_counterexample :
    RequiresFixup texFixDestroyed = true
    ∧ GetCopyBuffer texFixDestroyed 0 = GetMappingBuffer texFixDestroyed 0
    ∧ ¬(RequiresFixup texFixDestroyed = true ↔
        GetCopyBuffer texFixDestroyed 0 ≠ GetMappingBuffer texFixDestroyed 0) := by
  refine ⟨by decide, by decide, ?_⟩
  intro hiff
  exact (hiff.mp (by decide)) (by decide)

/-- C3 (amended): `RequiresFixup` is true iff the format is R8G8B8; for every
texture of any other format and every subresource, the copy buffer equals the
mapping buffer; and for every subresource whose buffers have just been
created from a state without a mapping buffer, `RequiresFixup` holds iff the
copy buffer differs from the mapping buffer. -/
theorem C3_fixup_copy_buffer (t : D3D9CommonTexture) (i : Nat) :
    (RequiresFixup t = true ↔ t.m_desc.Format = D3D9Format.R8G8B8)
    ∧ (t.m_desc.Format ≠ D3D9Format.R8G8B8 →
        GetCopyBuffer t i = GetMappingBuffer t i)
    ∧ (t.m_buffers i = none →
        (RequiresFixup (CreateBufferSubresource t i).2 = true ↔
          GetCopyBuffer (CreateBufferSubresource t i).2 i ≠
            GetMappingBuffer (CreateBufferSubresource t i).2 i)) := by
  refine ⟨by simp [RequiresFixup], ?_, ?_⟩
  · intro h
    simp [GetCopyBuffer, GetMappingBuffer, RequiresFixup, h]
  · intro h
    unfold CreateBufferSubresource
    simp only [h, Option.isSome_none, Bool.false_eq_true, if_false]
    by_cases hf : t.RequiresFixup = true
    · have hFmt : t.m_desc.Format = D3D9Format.R8G8B8 := by
        unfold RequiresFixup at hf
        simpa using hf
      simp only [hf, if_true]
      simp [GetCopyBuffer, GetMappingBuffer, RequiresFixup, Function.update_same, hFmt]
    · have hFmt : ¬t.m_desc.Format = D3D9Format.R8G8B8 := by
        unfold RequiresFixup at hf
        simpa using hf
      simp only [hf, if_false]
      simp [GetCopyBuffer, GetMappingBuffer, RequiresFixup, Function.update_same, hFmt]

/-- Witness for C3 (amended): the theorem applied to the backed non-fixup
texture and to the fixup-format texture at subresource 0. -/
theorem C3_fixup_copy_buffer_witness :
    (RequiresFixup texFix = true ↔ texFix.m_desc.Format = D3D9Format.R8G8B8)
    ∧ GetCopyBuffer texBacked 0 = GetMappingBuffer texBacked 0
    ∧ (RequiresFixup (CreateBufferSubresource texFix 0).2 = true ↔
        GetCopyBuffer (CreateBufferSubresource texFix 0).2 0 ≠
          GetMappingBuffer (CreateBufferSubresource texFix 0).2 0) :=
  ⟨(C3_fixup_copy_buffer texFix 0).1,
   (C3_fixup_copy_buffer texBacked 0).2.1 (by decide),
   (C3_fixup_copy_buffer texFix 0).2.2 (by decide)⟩

/-! Claim C4. -/

/-- C4: `CalcSubresource` is a bijection from pairs (face, mip) with
face < ArraySize and mip < MipLevels onto [0, CountSubresources): it lands
inside the range, its inverse (division and remainder by the mip count)
recovers the pair exactly, and every index in the range is hit by the pair
its inverse produces. -/
theorem C4_calc_subresource_bijection (t : D3D9CommonTexture)
    (Face MipLevel idx : Nat)
    (hf : Face < t.m_desc.ArraySize)
    (hm : MipLevel < t.m_desc.MipLevels)
    (hi : idx < CountSubresources t) :
    CalcSubresource t Face MipLevel < CountSubresources t
    ∧ CalcSubresource t Face MipLevel / t.m_desc.MipLevels = Face
    ∧ CalcSubresource t Face MipLevel % t.m_desc.MipLevels = MipLevel
    ∧ idx / t.m_desc.MipLevels < t.m_desc.ArraySize
    ∧ idx % t.m_desc.MipLevels < t.m_desc.MipLevels
    ∧ CalcSubresource t (idx / t.m_desc.MipLevels) (idx % t.m_desc.MipLevels) = idx := by
  have hM : 0 < t.m_desc.MipLevels := Nat.pos_of_ne_zero (by omega)
  unfold CalcSubresource CountSubresources at *
  refine ⟨?_, ?_, ?_, ?_, ?_, ?_⟩
  · have h1 : Face * t.m_desc.MipLevels + MipLevel < (Face + 1) * t.m_desc.MipLevels := by
      rw [Nat.add_mul, Nat.one_mul]
      omega
    have h2 : (Face + 1) * t.m_desc.MipLevels ≤ t.m_desc.ArraySize * t.m_desc.MipLevels :=
      Nat.mul_le_mul_right _ hf
    exact lt_of_lt_of_le h1 h2
  · rw [Nat.mul_comm Face t.m_desc.MipLevels, Nat.mul_add_div hM,
      Nat.div_eq_of_lt hm, Nat.add_zero]
  · rw [Nat.mul_comm Face t.m_desc.MipLevels, Nat.mul_add_mod,
      Nat.mod_eq_of_lt hm]
  · exact (Nat.div_lt_iff_lt_mul hM).mpr hi
  · exact Nat.mod_lt idx hM
  · rw [Nat.mul_comm]
    exact Nat.div_add_mod idx t.m_desc.MipLevels

/-- Witness for C4: the backed texture (arraySize 1, 4 mips), face 0, mip 2,
index 3. -/
theorem C4_calc_subresource_bijection_witness :
    CalcSubresource texBacked 0 2 < CountSubresources texBacked
    ∧ CalcSubresource texBacked 0 2 / texBacked.m_desc.MipLevels = 0
    ∧ CalcSubresource texBacked 0 2 % texBacked.m_desc.MipLevels = 2
    ∧ 3 / texBacked.m_desc.MipLevels < texBacked.m_desc.ArraySize
    ∧ 3 % texBacked.m_desc.MipLevels < texBacked.m_desc.MipLevels
    ∧ CalcSubresource texBacked (3 / texBacked.m_desc.MipLevels)
        (3 % texBacked.m_desc.MipLevels) = 3 :=
  C4_calc_subresource_bijection texBacked 0 2 3 (by decide) (by decide) (by decide)

/-! Claim C5. -/

/-- C5: from a state without a mapping buffer for subresource i, calling
`CreateBufferSubresource i` twice in succession performs exactly one
allocation: the first call reports an allocation, the second reports none
and leaves the state entirely unchanged. -/
theorem C5_create_buffer_idempotent (t : D3D9CommonTexture) (i : Nat)
    (h : t.m_buffers i = none) :
    (CreateBufferSubresource t i).1 = true
    ∧ (CreateBufferSubresource (CreateBufferSubresource t i).2 i).1 = false
    ∧ (CreateBufferSubresource (CreateBufferSubresource t i).2 i).2 =
        (CreateBufferSubresource t i).2 := by
  have h2 := createBufferSubresource_buffers_of_none t i h
  have h3 := createBufferSubresource_of_some (CreateBufferSubresource t i).2 i _ h2
  refine ⟨?_, ?_, ?_⟩
  · unfold CreateBufferSubresource
    simp only [h, Option.isSome_none, Bool.false_eq_true, if_false]
    split <;> rfl
  · rw [h3]
  · rw [h3]

/-- Witness for C5: the fixup-format texture, subresource 0, whose mapping
buffer starts out null. -/
theorem C5_create_buffer_idempotent_witness :
    (CreateBufferSubresource texFix 0).1 = true
    ∧ (CreateBufferSubresource (CreateBufferSubresource texFix 0).2 0).1 = false
    ∧ (CreateBufferSubresource (CreateBufferSubresource texFix 0).2 0).2 =
        (CreateBufferSubresource texFix 0).2 :=
  C5_create_buffer_idempotent texFix 0 (by decide)

/-! Claim C6. -/

/-- C6: `GetResolveImage` is lazily memoized: after any call the cache holds
exactly the handle that was returned; a second call returns the identical
handle and changes nothing; and on a state whose cache is already populated
no construction happens at all (state returned unchanged, cached handle
returned). -/
theorem C6_resolve_image_memoized (t : D3D9CommonTexture) :
    (GetResolveImage (GetResolveImage t).2).1 = (GetResolveImage t).1
    ∧ (GetResolveImage (GetResolveImage t).2).2 = (GetResolveImage t).2
    ∧ ((GetResolveImage t).2).m_resolveImage = some (GetResolveImage t).1
    ∧ (∀ img, t.m_resolveImage = some img →
        (GetResolveImage t).2 = t ∧ (GetResolveImage t).1 = img) := by
  rcases h : t.m_resolveImage with _ | img
  · refine ⟨?_, ?_, ?_, ?_⟩ <;> simp [GetResolveImage, h]
  · refine ⟨?_, ?_, ?_, ?_⟩ <;> simp [GetResolveImage, h]

/-- Witness for C6: the backed texture after one `GetResolveImage` call has a
populated cache, so the theorem's hypothesis is dischargeable there with the
concrete single-sample handle. -/
theorem C6_resolve_image_memoized_witness :
    (GetResolveImage (GetResolveImage texBacked).2).1 = (GetResolveImage texBacked).1
    ∧ (GetResolveImage ((GetResolveImage texBacked).2)).2 = (GetResolveImage texBacked).2
    ∧ ((GetResolveImage ((GetResolveImage texBacked).2)).2 = (GetResolveImage texBacked).2
        ∧ (GetResolveImage ((GetResolveImage texBacked).2)).1
            = DxvkImage.mk 1 1) :=
  ⟨(C6_resolve_image_memoized texBacked).1,
   (C6_resolve_image_memoized texBacked).2.1,
   (C6_resolve_image_memoized ((GetResolveImage texBacked).2)).2.2.2
     (DxvkImage.mk 1 1) (by decide)⟩

/-! Claim C7. -/

/-- C7: `DestroyBufferSubresource i` nulls exactly the mapping and fixup
buffers of subresource i; all buffers of every other subresource, every
lock flag, and the description, map mode, backing image, resolve image and
view set are unchanged. -/
theorem C7_destroy_buffer_frame (t : D3D9CommonTexture) (i j : Nat) (hij : j ≠ i) :
    (DestroyBufferSubresource t i).m_buffers i = none
    ∧ (DestroyBufferSubresource t i).m_fixupBuffers i = none
    ∧ (DestroyBufferSubresource t i).m_buffers j = t.m_buffers j
    ∧ (DestroyBufferSubresource t i).m_fixupBuffers j = t.m_fixupBuffers j
    ∧ (DestroyBufferSubresource t i).m_lockFlags = t.m_lockFlags
    ∧ (DestroyBufferSubresource t i).m_desc = t.m_desc
    ∧ (DestroyBufferSubresource t i).m_mapMode = t.m_mapMode
    ∧ (DestroyBufferSubresource t i).m_image = t.m_image
    ∧ (DestroyBufferSubresource t i).m_resolveImage = t.m_resolveImage
    ∧ (DestroyBufferSubresource t i).m_views = t.m_views := by
  refine ⟨?_, ?_, ?_, ?_, rfl, rfl, rfl, rfl, rfl, rfl⟩ <;>
    simp [DestroyBufferSubresource, Function.update_same, Function.update_noteq hij]

/-- Witness for C7: destroying subresource 0 of the concrete fixup texture
with created buffers, checking subresource 1. -/
theorem C7_destroy_buffer_frame_witness :
    (DestroyBufferSubresource (CreateBufferSubresource texFix 0).2 0).m_buffers 0 = none
    ∧ (DestroyBufferSubresource (CreateBufferSubresource texFix 0).2 0).m_fixupBuffers 0 = none
    ∧ (DestroyBufferSubresource (CreateBufferSubresource texFix 0).2 0).m_buffers 1 =
        ((CreateBufferSubresource texFix 0).2).m_buffers 1
    ∧ (DestroyBufferSubresource (CreateBufferSubresource texFix 0).2 0).m_desc =
        ((CreateBufferSubresource texFix 0).2).m_desc :=
  ⟨(C7_destroy_buffer_frame (CreateBufferSubresource texFix 0).2 0 1 (by decide)).1,
   (C7_destroy_buffer_frame (CreateBufferSubresource texFix 0).2 0 1 (by decide)).2.1,
   (C7_destroy_buffer_frame (CreateBufferSubresource texFix 0).2 0 1 (by decide)).2.2.1,
   (C7_destroy_buffer_frame (CreateBufferSubresource texFix 0).2 0 1 (by decide)).2.2.2.2.2.1⟩

/-! Claim C8. -/

/-- C8: when the face-0 render-target color view exists, `GetRTLayout` is the
color-attachment-optimal layout exactly when that view's image tiling is
optimal and the general layout otherwise; symmetrically for `GetDepthLayout`
and the face-0 depth view with the depth-stencil-attachment-optimal
layout. -/
theorem C8_attachment_layouts (vs : D3D9ViewSet) :
    (∀ v, (vs.FaceRenderTarget 0).Color = some v →
      (vs.GetRTLayout =
        if v.tiling = VkImageTiling.OPTIMAL then
          VkImageLayout.COLOR_ATTACHMENT_OPTIMAL
        else
          VkImageLayout.GENERAL)
      ∧ (vs.GetRTLayout = VkImageLayout.COLOR_ATTACHMENT_OPTIMAL ↔
          v.tiling = VkImageTiling.OPTIMAL))
    ∧ (∀ w, vs.FaceDepth 0 = some w →
      (vs.GetDepthLayout =
        if w.tiling = VkImageTiling.OPTIMAL then
          VkImageLayout.DEPTH_STENCIL_ATTACHMENT_OPTIMAL
        else
          VkImageLayout.GENERAL)
      ∧ (vs.GetDepthLayout = VkImageLayout.DEPTH_STENCIL_ATTACHMENT_OPTIMAL ↔
          w.tiling = VkImageTiling.OPTIMAL)) := by
  constructor
  · intro v hv
    unfold D3D9ViewSet.GetRTLayout
    rw [hv]
    rcases hvt : v.tiling <;> simp [hvt]
  · intro w hw
    unfold D3D9ViewSet.GetDepthLayout
    rw [hw]
    rcases hwt : w.tiling <;> simp [hwt]

/-- Witness for C8: the concrete view set with an optimal-tiling face-0
render-target view and a linear-tiling face-0 depth view. -/
theorem C8_attachment_layouts_witness :
    (vsExample.GetRTLayout = VkImageLayout.COLOR_ATTACHMENT_OPTIMAL ↔
      (DxvkImageView.mk 5 VkImageTiling.OPTIMAL).tiling = VkImageTiling.OPTIMAL)
    ∧ (vsExample.GetDepthLayout = VkImageLayout.DEPTH_STENCIL_ATTACHMENT_OPTIMAL ↔
      (DxvkImageView.mk 6 VkImageTiling.LINEAR).tiling = VkImageTiling.OPTIMAL) :=
  ⟨((C8_attachment_layouts vsExample).1 (DxvkImageView.mk 5 VkImageTiling.OPTIMAL)
      (by decide)).2,
   ((C8_attachment_layouts vsExample).2 (DxvkImageView.mk 6 VkImageTiling.LINEAR)
      (by decide)).2⟩

/-! Claim C9. -/

/-- C9: whenever `NormalizeTextureProperties` succeeds, the normalized
mip-level count is at least 1, and when the automatic sentinel (count 0) was
requested it equals floor(log2(max(width, height, depth))) + 1. -/
theorem C9_normalized_mip_count (desc desc' : D3D9_COMMON_TEXTURE_DESC)
    (h : NormalizeTextureProperties desc = some desc') :
    1 ≤ desc'.MipLevels
    ∧ (desc.MipLevels = 0 →
        desc'.MipLevels =
          Nat.log2 (max desc.Width (max desc.Height desc.Depth)) + 1) := by
  unfold NormalizeTextureProperties at h
  by_cases h1 : desc.Width = 0 ∨ desc.Height = 0 ∨ desc.Depth = 0 ∨ desc.ArraySize = 0
  · rw [if_pos h1] at h
    exact Option.noConfusion h
  · rw [if_neg h1] at h
    by_cases h2 : desc.MultiSample ≠ 0 ∧ 1 < desc.MipLevels
    · rw [if_pos h2] at h
      exact Option.noConfusion h
    · rw [if_neg h2] at h
      have h' := Option.some.inj h
      subst h'
      by_cases hz : desc.MipLevels = 0
      · simp [hz]
      · constructor
        · simp only [hz, if_false]
          omega
        · intro hc
          exact absurd hc hz

/-- Witness for C9: the automatic-sentinel 256x256x1 description normalizes
to 9 mip levels. -/
theorem C9_normalized_mip_count_witness :
    1 ≤ ({ descAuto with MipLevels := 9 } : D3D9_COMMON_TEXTURE_DESC).MipLevels
    ∧ (descAuto.MipLevels = 0 →
        ({ descAuto with MipLevels := 9 } : D3D9_COMMON_TEXTURE_DESC).MipLevels =
          Nat.log2 (max descAuto.Width (max descAuto.Height descAuto.Depth)) + 1) :=
  C9_normalized_mip_count descAuto { descAuto with MipLevels := 9 } (by
    have hlog : Nat.log2 256 = 8 := by simp [Nat.log2]
    unfold NormalizeTextureProperties descAuto descBacked
    norm_num [hlog])

/-! Claim C10. -/

/-- C10: `SetLockFlags i f` makes `GetLockFlags i` return f, leaves the lock
flags of every other subresource unchanged, and leaves the buffers, fixup
buffers, images, views, description and map mode untouched. -/
theorem C10_lock_flags_frame (t : D3D9CommonTexture) (i j f : Nat) (hij : j ≠ i) :
    GetLockFlags (SetLockFlags t i f) i = f
    ∧ GetLockFlags (SetLockFlags t i f) j = GetLockFlags t j
    ∧ (SetLockFlags t i f).m_buffers = t.m_buffers
    ∧ (SetLockFlags t i f).m_fixupBuffers = t.m_fixupBuffers
    ∧ (SetLockFlags t i f).m_image = t.m_image
    ∧ (SetLockFlags t i f).m_resolveImage = t.m_resolveImage
    ∧ (SetLockFlags t i f).m_views = t.m_views
    ∧ (SetLockFlags t i f).m_desc = t.m_desc
    ∧ (SetLockFlags t i f).m_mapMode = t.m_mapMode := by
  refine ⟨?_, ?_, rfl, rfl, rfl, rfl, rfl, rfl, rfl⟩ <;>
    simp [SetLockFlags, GetLockFlags, Function.update_same, Function.update_noteq hij]

/-- Witness for C10: setting flags 3 on subresource 0 of the backed texture,
checking subresource 1. -/
theorem C10_lock_flags_frame_witness :
    GetLockFlags (SetLockFlags texBacked 0 3) 0 = 3
    ∧ GetLockFlags (SetLockFlags texBacked 0 3) 1 = GetLockFlags texBacked 1
    ∧ (SetLockFlags texBacked 0 3).m_desc = texBacked.m_desc :=
  ⟨(C10_lock_flags_frame texBacked 0 1 3 (by decide)).1,
   (C10_lock_flags_frame texBacked 0 1 3 (by decide)).2.1,
   (C10_lock_flags_frame texBacked 0 1 3 (by decide)).2.2.2.2.2.2.2.1⟩

end D9VK
